import Mathlib

/-!
Verification development for `whoistop.py`, a sequential domain-enrichment
pipeline: normalize domains, RDAP lookup, extract registrant data, ReceitaWS
lookup, format, and append to a dedup-by-key CSV table, with sleep-based pacing.

The Python source is shallowly embedded: JSON payloads become the inductive
`JVal`; dictionary/list accesses that can raise in Python (`d[k]`, `l[i]`,
`len`, iteration over a non-iterable) become `Except String` computations;
`dict.get(k, default)` and truthiness are modelled explicitly.  Wall-clock
durations of the external calls are supplied by an oracle and tracked as
integer seconds; every `time.sleep` call site becomes a trace event.
-/

/-- A JSON value as produced by `resposta.json()` in the source.  Numbers are
modelled as integers (no claim depends on float payloads).  An object models a
Python dict produced by `json.loads`, whose keys are distinct strings. -/
inductive JVal : Type where
  | jstr : String → JVal
  | jnum : Int → JVal
  | jarr : List JVal → JVal
  | jobj : List (String × JVal) → JVal

mutual

/-- Decidable equality for `JVal` (the automatic derivation does not handle
this nested inductive, so the instance is spelled out). -/
def jvalDecEq : (a b : JVal) → Decidable (a = b)
  | .jstr a, .jstr b =>
    match String.decEq a b with
    | isTrue h => isTrue (by rw [h])
    | isFalse h => isFalse (fun hh => h (JVal.jstr.inj hh))
  | .jnum a, .jnum b =>
    match Int.decEq a b with
    | isTrue h => isTrue (by rw [h])
    | isFalse h => isFalse (fun hh => h (JVal.jnum.inj hh))
  | .jarr a, .jarr b =>
    match jvalDecEqList a b with
    | isTrue h => isTrue (by rw [h])
    | isFalse h => isFalse (fun hh => h (JVal.jarr.inj hh))
  | .jobj a, .jobj b =>
    match jvalDecEqPairs a b with
    | isTrue h => isTrue (by rw [h])
    | isFalse h => isFalse (fun hh => h (JVal.jobj.inj hh))
  | .jstr _, .jnum _ => isFalse (fun h => JVal.noConfusion h)
  | .jstr _, .jarr _ => isFalse (fun h => JVal.noConfusion h)
  | .jstr _, .jobj _ => isFalse (fun h => JVal.noConfusion h)
  | .jnum _, .jstr _ => isFalse (fun h => JVal.noConfusion h)
  | .jnum _, .jarr _ => isFalse (fun h => JVal.noConfusion h)
  | .jnum _, .jobj _ => isFalse (fun h => JVal.noConfusion h)
  | .jarr _, .jstr _ => isFalse (fun h => JVal.noConfusion h)
  | .jarr _, .jnum _ => isFalse (fun h => JVal.noConfusion h)
  | .jarr _, .jobj _ => isFalse (fun h => JVal.noConfusion h)
  | .jobj _, .jstr _ => isFalse (fun h => JVal.noConfusion h)
  | .jobj _, .jnum _ => isFalse (fun h => JVal.noConfusion h)
  | .jobj _, .jarr _ => isFalse (fun h => JVal.noConfusion h)

/-- Decidable equality for lists of `JVal`. -/
def jvalDecEqList : (a b : List JVal) → Decidable (a = b)
  | [], [] => isTrue rfl
  | [], _ :: _ => isFalse (fun h => List.noConfusion h)
  | _ :: _, [] => isFalse (fun h => List.noConfusion h)
  | x :: xs, y :: ys =>
    match jvalDecEq x y with
    | isFalse h => isFalse (fun hh => h (List.cons.inj hh).1)
    | isTrue h1 =>
      match jvalDecEqList xs ys with
      | isTrue h2 => isTrue (by rw [h1, h2])
      | isFalse h2 => isFalse (fun hh => h2 (List.cons.inj hh).2)

/-- Decidable equality for key/value pair lists of `JVal`. -/
def jvalDecEqPairs : (a b : List (String × JVal)) → Decidable (a = b)
  | [], [] => isTrue rfl
  | [], _ :: _ => isFalse (fun h => List.noConfusion h)
  | _ :: _, [] => isFalse (fun h => List.noConfusion h)
  | (k, v) :: xs, (k2, v2) :: ys =>
    match String.decEq k k2 with
    | isFalse hk => isFalse (fun hh => hk (congrArg Prod.fst (List.cons.inj hh).1))
    | isTrue hk =>
      match jvalDecEq v v2 with
      | isFalse hv => isFalse (fun hh => hv (congrArg Prod.snd (List.cons.inj hh).1))
      | isTrue hv =>
        match jvalDecEqPairs xs ys with
        | isTrue ht => isTrue (by rw [hk, hv, ht])
        | isFalse ht => isFalse (fun hh => ht (List.cons.inj hh).2)

end

instance : DecidableEq JVal := jvalDecEq

instance {ε α : Type} [DecidableEq ε] [DecidableEq α] : DecidableEq (Except ε α) := fun a b =>
  match a, b with
  | .ok x, .ok y =>
    if h : x = y then isTrue (by rw [h]) else isFalse (fun hh => h (Except.ok.inj hh))
  | .error x, .error y =>
    if h : x = y then isTrue (by rw [h]) else isFalse (fun hh => h (Except.error.inj hh))
  | .ok _, .error _ => isFalse (fun h => Except.noConfusion h)
  | .error _, .ok _ => isFalse (fun h => Except.noConfusion h)

/-- Python truthiness (`if x:`) for the JSON values that occur here:
empty string, zero, empty list and empty dict are falsy. -/
def pyTruthy : JVal → Bool
  | .jstr s => !(s == "")
  | .jnum n => !(n == 0)
  | .jarr l => !l.isEmpty
  | .jobj l => !l.isEmpty

/-- `isinstance(v, dict)`. -/
def isDict : JVal → Bool
  | .jobj _ => true
  | _ => false

/-- Key lookup in a dict modelled as an association list with distinct keys
(first match, as materialised by `json.loads`). -/
def objLookup (l : List (String × JVal)) (k : String) : Option JVal :=
  match l.find? (fun p => p.1 == k) with
  | some p => some p.2
  | none => none

/-- Python `d.get(k, default)`: the value when `d` is a dict, the default when
the key is absent, and `AttributeError` when `d` is not a dict. -/
def pyGet (v : JVal) (k : String) (default : JVal) : Except String JVal :=
  match v with
  | .jobj l =>
    match objLookup l k with
    | some x => .ok x
    | none => .ok default
  | _ => .error "AttributeError: get"

/-- Python `d[k]` with a string key: `KeyError` when absent, `TypeError` when
`d` is not a dict (list/str indices must be integers). -/
def pyGetItem (v : JVal) (k : String) : Except String JVal :=
  match v with
  | .jobj l =>
    match objLookup l k with
    | some x => .ok x
    | none => .error "KeyError"
  | _ => .error "TypeError: string index on non-dict"

/-- Python `v[i]` with an integer index: list indexing (IndexError when out of
range), string indexing (one-character string), KeyError on a JSON dict (its
keys are strings), TypeError on a number. -/
def pyIndex (v : JVal) (i : Nat) : Except String JVal :=
  match v with
  | .jarr l =>
    match l.get? i with
    | some x => .ok x
    | none => .error "IndexError: list index out of range"
  | .jstr s =>
    match s.data.get? i with
    | some c => .ok (.jstr (String.singleton c))
    | none => .error "IndexError: string index out of range"
  | .jobj _ => .error "KeyError"
  | .jnum _ => .error "TypeError: number is not subscriptable"

/-- Python `len(v)`: TypeError on a number. -/
def pyLen (v : JVal) : Except String Nat :=
  match v with
  | .jarr l => .ok l.length
  | .jstr s => .ok s.length
  | .jobj l => .ok l.length
  | .jnum _ => .error "TypeError: number has no len"

/-- Python iteration `for x in v`: the elements of a list, the characters of a
string, the keys of a dict; TypeError on a number. -/
def pyIterList (v : JVal) : Except String (List JVal) :=
  match v with
  | .jarr l => .ok l
  | .jstr s => .ok (s.data.map (fun c => .jstr (String.singleton c)))
  | .jobj l => .ok (l.map (fun p => .jstr p.1))
  | .jnum _ => .error "TypeError: number is not iterable"

/-- Substring test, used by Python `x in s` on strings. -/
def charsContain (hay pat : List Char) : Bool :=
  match hay with
  | [] => pat.isEmpty
  | _ :: t => pat.isPrefixOf hay || charsContain t pat

/-- Python `x in v`: key membership for a dict, element membership for a list,
substring for a string, TypeError on a number. -/
def pyIn (x : JVal) (v : JVal) : Except String Bool :=
  match v with
  | .jobj l =>
    match x with
    | .jstr s => .ok (l.any (fun p => p.1 == s))
    | _ => .ok false
  | .jarr l => .ok (l.any (fun y => y == x))
  | .jstr s =>
    match x with
    | .jstr p => .ok (charsContain s.data p.data)
    | _ => .error "TypeError: in <string> requires string"
  | .jnum _ => .error "TypeError: argument of type int is not iterable"

/-- The dict returned by `extract_key_info`. -/
structure ExtractedInfo where
  email_rdap : JVal
  cpf_cnpj : JVal
  name : JVal
deriving DecidableEq

/-- `x if x else 'Not available'` applied to a possibly-unset variable. -/
def truthyOr (o : Option JVal) : JVal :=
  match o with
  | some v => if pyTruthy v then v else .jstr "Not available"
  | none => .jstr "Not available"

/-- The inner loop of lines 56-58 of the source: scan a registrant entity's
`publicIds`; every entry typed `cpf` or `cnpj` overwrites `cpf_cnpj`, so the
last match wins.  `public_id['type']` and `public_id['identifier']` are
mandatory accesses that raise when absent. -/
def scanPublicIds (cpf : Option JVal) : List JVal → Except String (Option JVal)
  | [] => .ok cpf
  | pid :: rest => do
    let t ← pyGetItem pid "type"
    if t = JVal.jstr "cpf" ∨ t = JVal.jstr "cnpj" then do
      let idv ← pyGetItem pid "identifier"
      scanPublicIds (some idv) rest
    else
      scanPublicIds cpf rest

/-- Lines 62-65 of the source: scan one contact card's rows; the first row
whose element 0 is `"email"` yields element 3 and stops this card's scan. -/
def scanVcardForEmail : List JVal → Except String (Option JVal)
  | [] => .ok none
  | item :: rest => do
    let k ← pyIndex item 0
    if k = JVal.jstr "email" then do
      let v ← pyIndex item 3
      .ok (some v)
    else
      scanVcardForEmail rest

/-- Lines 61-65 applied to one sub-entity: read its `vcardArray` (defaulting to
`[[]]`, whose index 1 raises IndexError), take component 1, and scan its rows
for the first email. -/
def subEntityEmail (sub : JVal) : Except String (Option JVal) := do
  let va ← pyGet sub "vcardArray" (.jarr [.jarr []])
  let vcard ← pyIndex va 1
  let items ← pyIterList vcard
  scanVcardForEmail items

/-- The `for sub_entity in entity.get('entities', [])` loop: a sub-entity whose
card contains an email overwrites `email_rdap`; one without leaves it alone.
The loop never stops early, so the last sub-entity with an email wins. -/
def scanSubEntities (email : Option JVal) : List JVal → Except String (Option JVal)
  | [] => .ok email
  | sub :: rest => do
    let found ← subEntityEmail sub
    scanSubEntities (match found with | some e => some e | none => email) rest

/-- One iteration of the `for entity in rdap_info.get('entities', [])` loop
(lines 52-65), threading the three mutable variables `(email, cpf, name)`. -/
def extractEntityStep (st : Option JVal × Option JVal × Option JVal) (entity : JVal) :
    Except String (Option JVal × Option JVal × Option JVal) := do
  let (email, cpf, nm) := st
  let roles ← pyGet entity "roles" (.jarr [])
  let isReg ← pyIn (.jstr "registrant") roles
  let (cpf, nm) ←
    if isReg then do
      let va ← pyGet entity "vcardArray" (.jarr [.jarr []])
      let vcard ← pyIndex va 1
      let lv ← pyLen vcard
      let nm2 ←
        if 1 < lv then do
          let v1 ← pyIndex vcard 1
          let l1 ← pyLen v1
          if 3 < l1 then
            pyIndex v1 3
          else
            pure (JVal.jstr "Not available")
        else
          pure (JVal.jstr "Not available")
      let pidsv ← pyGet entity "publicIds" (.jarr [])
      let pids ← pyIterList pidsv
      let cpf2 ← scanPublicIds cpf pids
      pure (cpf2, some nm2)
    else
      pure (cpf, nm)
  let subsv ← pyGet entity "entities" (.jarr [])
  let subs ← pyIterList subsv
  let email2 ← scanSubEntities email subs
  pure (email2, cpf, nm)

/-- `extract_key_info` (lines 40-71 of the source).  Error-tagged records yield
the `"Error"` sentinel triple; otherwise entities are scanned and unset fields
fall back to `"Not available"` through Python truthiness. -/
def extract_key_info (rdap_info : JVal) : Except String ExtractedInfo := do
  let hasErr ← pyIn (.jstr "error") rdap_info
  if hasErr then
    .ok ⟨.jstr "Error", .jstr "Error", .jstr "Error"⟩
  else do
    let entsv ← pyGet rdap_info "entities" (.jarr [])
    let ents ← pyIterList entsv
    let (email, cpf, nm) ← ents.foldlM extractEntityStep (none, none, none)
    .ok ⟨truthyOr email, truthyOr cpf, truthyOr nm⟩

/-- `sanitize_cnpj` (line 90-91): `re.sub(r'\D', '', cnpj)` drops every
non-digit character.  Digits are the ASCII decimal digits (Python's `\d` also
matches other Unicode decimal digits; none occur in tax identifiers). -/
def sanitize_cnpj (cnpj : String) : String :=
  ⟨cnpj.data.filter Char.isDigit⟩

mutual

/-- Python `str()` of a JSON value, as used by the f-string that builds the
`Full Address` column.  Scalars render exactly; for nested lists/dicts the
element rendering omits Python's repr quoting (immaterial here: every claim
exercises scalar address components only). -/
def pyStr : JVal → String
  | .jstr s => s
  | .jnum n => toString n
  | .jarr l => "[" ++ pyStrElems l ++ "]"
  | .jobj l => "\x7b" ++ pyStrPairs l ++ "\x7d"

/-- Comma-separated rendering of list elements for `pyStr`. -/
def pyStrElems : List JVal → String
  | [] => ""
  | [x] => pyStr x
  | x :: y :: xs => pyStr x ++ ", " ++ pyStrElems (y :: xs)

/-- Comma-separated rendering of dict entries for `pyStr`. -/
def pyStrPairs : List (String × JVal) → String
  | [] => ""
  | [(k, v)] => k ++ ": " ++ pyStr v
  | (k, v) :: y :: xs => k ++ ": " ++ pyStr v ++ ", " ++ pyStrPairs (y :: xs)

end

/-- The dict returned by `format_cnpj_info`: the thirteen fixed keys it always
carries.  In `save_to_csv` the source reads these keys back with
`cnpj_info.get(key, 'Not available')`; since the formatter always writes every
key, those reads are the fields themselves. -/
structure CnpjInfo where
  nome : JVal
  fantasia : JVal
  logradouro : JVal
  numero : JVal
  bairro : JVal
  municipio : JVal
  uf : JVal
  cep : JVal
  telefone : JVal
  situacao : JVal
  capital_social : JVal
  email : JVal
  qsa : JVal
deriving DecidableEq

/-- `format_cnpj_info` (lines 73-88): project the ReceitaWS payload onto the
fixed keys, defaulting each missing field to `'Not available'` and `qsa` to the
empty list.  Raises (AttributeError) when the payload is not a dict, exactly as
`info.get` would. -/
def format_cnpj_info (info : JVal) : Except String CnpjInfo := do
  let nome ← pyGet info "nome" (.jstr "Not available")
  let fantasia ← pyGet info "fantasia" (.jstr "Not available")
  let logradouro ← pyGet info "logradouro" (.jstr "Not available")
  let numero ← pyGet info "numero" (.jstr "Not available")
  let bairro ← pyGet info "bairro" (.jstr "Not available")
  let municipio ← pyGet info "municipio" (.jstr "Not available")
  let uf ← pyGet info "uf" (.jstr "Not available")
  let cep ← pyGet info "cep" (.jstr "Not available")
  let telefone ← pyGet info "telefone" (.jstr "Not available")
  let situacao ← pyGet info "situacao" (.jstr "Not available")
  let capital_social ← pyGet info "capital_social" (.jstr "Not available")
  let email ← pyGet info "email" (.jstr "Not available")
  let qsa ← pyGet info "qsa" (.jarr [])
  .ok ⟨nome, fantasia, logradouro, numero, bairro, municipio, uf, cep, telefone,
       situacao, capital_social, email, qsa⟩

/-- One row of the output CSV (`new_row`, lines 111-126). -/
structure Row where
  domain : String
  registrationName : JVal
  tradeName : JVal
  fullAddress : String
  cep : JVal
  phone : JVal
  status : JVal
  socialCapital : JVal
  partner1Name : JVal
  partner1Qual : JVal
  partner2Name : JVal
  partner2Qual : JVal
  rdapEmail : JVal
  receitaEmail : JVal
deriving DecidableEq

/-- The output table: the rows of `informacoes_empresa.csv` in file order.  A
missing output file is the empty table. -/
abbrev Table := List Row

/-- The `Domain` column. -/
def tableDomains (T : Table) : List String := T.map Row.domain

/-- One partner column (lines 120-123 of the source):
`qsa[i].get(key, 'Not available') if len(qsa) > i else 'Not available'`. -/
def partnerField (qsa : JVal) (qlen : ℕ) (i : ℕ) (key : String) : Except String JVal :=
  if i < qlen then do
    let q ← pyIndex qsa i
    pyGet q key (.jstr "Not available")
  else
    pure (.jstr "Not available")

/-- `save_to_csv` (lines 93-132): re-read the table, refuse duplicates
(returning `False` and leaving the table intact), otherwise build `new_row`,
append it, rewrite the file and bump the process-wide success counter.  The
partner columns come from `qsa[0]`/`qsa[1]` and can raise when a `qsa` entry is
not a dict; the duplicate check happens before any of that.  The state
`(Table, counter)` stands for the backing file plus `CONTADOR_SUCESSO`. -/
def save_to_csv (dominio : String) (rdap_info : ExtractedInfo) (cnpj_info : CnpjInfo)
    (df : Table) (contador : ℕ) : Except String (Bool × Table × ℕ) := do
  if dominio ∈ tableDomains df then
    .ok (false, df, contador)
  else do
    let qsa := cnpj_info.qsa
    let qlen ← pyLen qsa
    let p1n ← partnerField qsa qlen 0 "nome"
    let p1q ← partnerField qsa qlen 0 "qual"
    let p2n ← partnerField qsa qlen 1 "nome"
    let p2q ← partnerField qsa qlen 1 "qual"
    let row : Row :=
      { domain := dominio
        registrationName := cnpj_info.nome
        tradeName := cnpj_info.fantasia
        fullAddress := pyStr cnpj_info.logradouro ++ ", " ++ pyStr cnpj_info.numero ++ ", " ++
          pyStr cnpj_info.bairro ++ ", " ++ pyStr cnpj_info.municipio ++ ", " ++
          pyStr cnpj_info.uf
        cep := cnpj_info.cep
        phone := cnpj_info.telefone
        status := cnpj_info.situacao
        socialCapital := cnpj_info.capital_social
        partner1Name := p1n
        partner1Qual := p1q
        partner2Name := p2n
        partner2Qual := p2q
        rdapEmail := rdap_info.email_rdap
        receitaEmail := cnpj_info.email }
    .ok (true, df ++ [row], contador + 1)

/-- Python `str.strip()`: drop whitespace from both ends.  (Spelled out over
the character list so that concrete evaluation reduces in the kernel.) -/
def strTrim (s : String) : String :=
  ⟨((s.data.dropWhile Char.isWhitespace).reverse.dropWhile Char.isWhitespace).reverse⟩

/-- Python `str.lower()` (ASCII case mapping; the inputs here are ASCII). -/
def strLower (s : String) : String :=
  ⟨s.data.map Char.toLower⟩

/-- Prefix test over characters. -/
def strStartsWith (s p : String) : Bool :=
  p.data.isPrefixOf s.data

/-- Python `str.endswith`. -/
def strEndsWith (s p : String) : Bool :=
  p.data.reverse.isPrefixOf s.data.reverse

/-- Drop the first `n` characters. -/
def strDrop (s : String) (n : ℕ) : String :=
  ⟨s.data.drop n⟩

/-- `re.sub(r'^https?://', '', d)`: strip one leading scheme. -/
def stripScheme (s : String) : String :=
  if strStartsWith s "http://" then strDrop s 7
  else if strStartsWith s "https://" then strDrop s 8
  else s

/-- Python `rstrip('/')`: remove every trailing slash. -/
def rstripSlashes (s : String) : String :=
  ⟨(s.data.reverse.dropWhile (fun c => c == '/')).reverse⟩

/-- `re.sub(r'^www\.', '', d)`: strip one leading `www.`. -/
def stripWww (s : String) : String :=
  if strStartsWith s "www." then strDrop s 4 else s

/-- `urlparse('http://' + domain).netloc`: CPython removes the unsafe bytes
tab/CR/LF from the URL, then the netloc runs from after `//` to the first of
`/`, `?` or `#`. -/
def urlparseNetloc (domain : String) : String :=
  let cleaned := domain.data.filter fun c =>
    !(c == Char.ofNat 9 || c == Char.ofNat 10 || c == Char.ofNat 13)
  ⟨cleaned.takeWhile fun c => !(c == '/' || c == '?' || c == '#')⟩

/-- Python `host.split('.')` on characters: split at every dot, keeping empty
pieces (so `""` splits to `[""]`, like Python). -/
def splitOnDot : List Char → List (List Char)
  | [] => [[]]
  | c :: t =>
    let r := splitOnDot t
    if c == '.' then [] :: r
    else
      match r with
      | h :: t2 => (c :: h) :: t2
      | [] => [[c]]

/-- `'.'.join(parts)`. -/
def joinDots : List (List Char) → List Char
  | [] => []
  | [p] => p
  | p :: q :: t => p ++ '.' :: joinDots (q :: t)

/-- The per-string body of `clean_domains` (lines 136-146): trim, lower-case,
strip scheme, strip trailing slashes, strip `www.`, parse as a host, split the
host on dots, and keep only the last three labels when there are more than
two, else all of them; rejoin with dots. -/
def cleanDomain (raw : String) : String :=
  let d := strLower (strTrim raw)
  let d := stripScheme d
  let d := rstripSlashes d
  let d := stripWww d
  let parts := splitOnDot (urlparseNetloc d).data
  if 2 < parts.length then
    ⟨joinDots (parts.drop (parts.length - 3))⟩
  else
    ⟨joinDots parts⟩

/-- `clean_domains` (lines 134-149): each input is cleaned and kept only when
the cleaned form ends in `.br` (the loop appends `cleanDomain raw` exactly
when the suffix test passes, i.e. it maps then filters). -/
def clean_domains (domains : List String) : List String :=
  (domains.map cleanDomain).filter (fun d => strEndsWith d ".br")

/-- Python `max(0, x)` (line 211).  Wall-clock durations are modelled as
integer seconds (`time.time()` differences are floats; nothing in the pacing
logic depends on fractional seconds). -/
def maxZero (x : ℤ) : ℤ := if x ≤ 0 then 0 else x

theorem maxZero_eq_max (x : ℤ) : maxZero x = max 0 x := by
  unfold maxZero
  rw [max_def]
  split <;> split <;> omega

/-- The environment of one run: the two HTTP services as pure functions from
request key to decoded JSON (an `{"error": ...}` dict is what the lookup
clients return on transport failure), plus the wall-clock duration of each
call in whole seconds. -/
structure Oracle where
  rdap : String → JVal
  rdapDur : String → ℤ
  cnpj : String → JVal
  cnpjDur : String → ℤ

/-- `isinstance(v, dict) and 'error' not in v` (lines 184 and 193). -/
def isDictNoError (v : JVal) : Bool :=
  match v with
  | .jobj l => !(l.any (fun p => p.1 == "error"))
  | _ => false

/-- `re.sub` demands a string subject; any other value raises TypeError. -/
def asPyString (v : JVal) : Except String String :=
  match v with
  | .jstr s => .ok s
  | _ => .error "TypeError: expected string or bytes-like object"

/-- Observable actions of one run, in order: the log lines of `main` (tagged
by call site) and the HTTP calls and `time.sleep` calls. -/
inductive Ev where
  | skipExisting (d : String)
  | processando (d : String)
  | rdapCall (d : String)
  | fixedSleep
  | rdapRecuperado (d : String)
  | cnpjCall (c : String)
  | erroReceita (d : String) (e : JVal)
  | cnpjInvalido (d : String)
  | cnpjNaoEncontrado (d : String)
  | erroRdap (d : String) (e : JVal)
  | salvo (d : String)
  | naoSalvo (d : String)
  | floorSleep (t : ℤ)
  | extendedPause
deriving DecidableEq

/-- Wall-clock seconds each action takes: log lines are instantaneous, the
fixed post-call sleeps take 10 seconds, the floor sleep its argument, the
extended pause 300 seconds, and the calls take what the oracle says. -/
def evTime (o : Oracle) : Ev → ℤ
  | .rdapCall d => o.rdapDur d
  | .cnpjCall c => o.cnpjDur c
  | .fixedSleep => 10
  | .floorSleep t => t
  | .extendedPause => 300
  | _ => 0

/-- Lines 178-207 of `main`, for one non-skipped domain: the RDAP call, its
fixed 10-second delay, and the nested outcome analysis through extraction,
sanitization, the ReceitaWS call and `save_to_csv`.  Returns the new table and
counter, the emitted events, and `tempo_processamento` — the wall time since
`inicio_processamento`, which is the call durations plus the fixed sleeps. -/
def domainBody (o : Oracle) (T : Table) (c : ℕ) (d : String) :
    Except String (Table × ℕ × List Ev × ℤ) := do
  let rdapRes := o.rdap d
  let ev0 : List Ev := [.processando d, .rdapCall d, .fixedSleep]
  let e0 : ℤ := o.rdapDur d + 10
  if isDictNoError rdapRes then do
    let ki ← extract_key_info rdapRes
    let ev1 := ev0 ++ [.rdapRecuperado d]
    if pyTruthy ki.cpf_cnpj then do
      let s ← asPyString ki.cpf_cnpj
      let sc := sanitize_cnpj s
      if sc.length = 14 then do
        let receita := o.cnpj sc
        let ev2 := ev1 ++ [.cnpjCall sc, .fixedSleep]
        let e1 := e0 + o.cnpjDur sc + 10
        if isDictNoError receita then do
          let fi ← format_cnpj_info receita
          let r ← save_to_csv d ki fi T c
          .ok (r.2.1, r.2.2, ev2 ++ [if r.1 then Ev.salvo d else Ev.naoSalvo d], e1)
        else do
          let errv ← pyGet receita "error" (.jstr "Erro desconhecido")
          .ok (T, c, ev2 ++ [.erroReceita d errv], e1)
      else
        .ok (T, c, ev1 ++ [.cnpjInvalido d], e0)
    else
      .ok (T, c, ev1 ++ [.cnpjNaoEncontrado d], e0)
  else do
    let errv ← pyGet rdapRes "error" (.jstr "Erro desconhecido")
    .ok (T, c, ev0 ++ [.erroRdap d errv], e0)

/-- One iteration of the `for dominio in cleaned_domains` loop (lines
173-217): skip domains already present in the start-up set, otherwise run the
body, sleep `max(0, 60 - tempo_processamento)` (lines 210-212), and afterwards
sleep the 300-second extended pause when the cumulative success counter is a
positive multiple of 5 (lines 215-217). -/
def processDomain (o : Oracle) (existing : List String) (st : Table × ℕ × List Ev)
    (d : String) : Except String (Table × ℕ × List Ev) := do
  let (T, c, ev) := st
  if d ∈ existing then
    .ok (T, c, ev ++ [.skipExisting d])
  else do
    let r ← domainBody o T c d
    .ok (r.1, r.2.1, ev ++ r.2.2.1 ++ [.floorSleep (maxZero (60 - r.2.2.2))] ++
      (if 0 < r.2.1 ∧ r.2.1 % 5 = 0 then [Ev.extendedPause] else []))

/-- The whole loop of `main` (lines 167-217): the existing-domain set is
loaded once from the initial table, `CONTADOR_SUCESSO` starts at 0, and the
cleaned domains are processed in order. -/
def runPipeline (o : Oracle) (ds : List String) (T0 : Table) :
    Except String (Table × ℕ × List Ev) :=
  ds.foldlM (processDomain o (tableDomains T0)) (T0, 0, [])

/-! ## Generic lemmas about the `Except` embedding -/

theorem exceptBind_ok {α β : Type} {x : Except String α} {f : α → Except String β} {b : β} :
    (x >>= f = Except.ok b) ↔ ∃ a, x = .ok a ∧ f a = .ok b := by
  cases x <;> simp [Bind.bind, Except.bind]

theorem exceptPure_eq_ok {α : Type} (a : α) : (pure a : Except String α) = .ok a := rfl

/-! ## Claims C8 and C10: extraction sentinels and partiality -/

/-- C8: an error-tagged record yields the `"Error"` sentinel in all three
fields, and a non-error record whose `entities` key is absent or the empty
list yields `"Not available"` in all three fields, never `"Error"`. -/
theorem c8_extraction_sentinels :
    (∀ l : List (String × JVal), l.any (fun p => p.1 == "error") = true →
      extract_key_info (.jobj l) = .ok ⟨.jstr "Error", .jstr "Error", .jstr "Error"⟩) ∧
    (∀ l : List (String × JVal), l.any (fun p => p.1 == "error") = false →
      (objLookup l "entities" = none ∨ objLookup l "entities" = some (.jarr [])) →
      extract_key_info (.jobj l) =
        .ok ⟨.jstr "Not available", .jstr "Not available", .jstr "Not available"⟩) := by
  constructor
  · intro l h
    simp [extract_key_info, pyIn, h, Bind.bind, Except.bind]
  · intro l h hent
    rcases hent with hent | hent <;>
      simp [extract_key_info, pyIn, h, pyGet, hent, pyIterList, Bind.bind, Except.bind,
        List.foldlM, truthyOr, pure, Except.pure]

/-- C8 witness at the two concrete records of the claim. -/
theorem c8_extraction_sentinels_witness :
    extract_key_info (.jobj [("error", .jstr "x")]) =
      .ok ⟨.jstr "Error", .jstr "Error", .jstr "Error"⟩ ∧
    extract_key_info (.jobj [("entities", .jarr [])]) =
      .ok ⟨.jstr "Not available", .jstr "Not available", .jstr "Not available"⟩ :=
  ⟨c8_extraction_sentinels.1 _ (by decide),
   c8_extraction_sentinels.2 _ (by decide) (Or.inr (by decide))⟩

/-- A non-error record whose registrant entity lacks `vcardArray`, so line 54
indexes the default `[[]]` at position 1. -/
def recMissingVcard : JVal :=
  .jobj [("entities", .jarr [.jobj [("roles", .jarr [.jstr "registrant"])]])]

/-- A non-error record whose registrant has a `publicIds` entry without a
`"type"` key, so line 57 raises KeyError. -/
def recMissingType : JVal :=
  .jobj [("entities", .jarr [.jobj
    [("roles", .jarr [.jstr "registrant"]),
     ("vcardArray", .jarr [.jstr "vcard", .jarr []]),
     ("publicIds", .jarr [.jobj [("identifier", .jstr "05.570.714/0001-59")]])]])]

/-- A non-error record with a sub-entity contact card containing an empty row,
so line 63 indexes `item[0]` out of range. -/
def recEmptyRow : JVal :=
  .jobj [("entities", .jarr [.jobj [("entities", .jarr
    [.jobj [("vcardArray", .jarr [.jstr "vcard", .jarr [.jarr []]])]])]])]

/-- C10: the extractor is not total on non-error structured payloads: each of
the three listed shapes (missing `vcardArray`, `publicIds` entry without
`type`, empty contact-card row) makes `extract_key_info` raise instead of
returning `"Not available"` defaults. -/
theorem c10_extractor_not_total :
    pyIn (.jstr "error") recMissingVcard = .ok false ∧
    extract_key_info recMissingVcard = .error "IndexError: list index out of range" ∧
    pyIn (.jstr "error") recMissingType = .ok false ∧
    extract_key_info recMissingType = .error "KeyError" ∧
    pyIn (.jstr "error") recEmptyRow = .ok false ∧
    extract_key_info recEmptyRow = .error "IndexError: list index out of range" :=
  ⟨by decide, by decide, by decide, by decide, by decide, by decide⟩

/-! ## Claim C4: domain normalization -/

/-- C4 counterexample: the source keeps only the last three dot-separated
labels of `sub.example.com.br` (it has four), so the cleaner yields
`example.com.br`, not `sub.example.com.br` as the claim states. -/
theorem c4_normalization_counterexample :
    clean_domains ["sub.example.com.br"] = ["example.com.br"] ∧
    (["example.com.br"] : List String) ≠ ["sub.example.com.br"] :=
  ⟨by decide, by decide⟩

/-- Every output of the cleaner ends in `.br`: the filter keeps exactly the
cleaned strings with that suffix. -/
theorem clean_domains_ends_br (ds : List String) (d : String)
    (hd : d ∈ clean_domains ds) : strEndsWith d ".br" = true :=
  (List.mem_filter.mp hd).2

set_option maxHeartbeats 1000000 in
/-- C4 amended: `HTTP://WWW.Example.COM.BR/` cleans to `example.com.br`;
`sub.example.com.br` and `a.b.example.com.br` both truncate to their last
three labels `example.com.br`; and every domain the cleaner keeps ends in the
national suffix `.br` (inputs whose cleaned form does not are dropped). -/
theorem c4_normalization_amended :
    clean_domains ["HTTP://WWW.Example.COM.BR/"] = ["example.com.br"] ∧
    clean_domains ["sub.example.com.br"] = ["example.com.br"] ∧
    clean_domains ["a.b.example.com.br"] = ["example.com.br"] ∧
    (∀ (ds : List String) (d : String), d ∈ clean_domains ds →
      strEndsWith d ".br" = true) :=
  ⟨by decide, by decide, by decide, clean_domains_ends_br⟩

/-- C4 amended witness: instantiating the universally quantified part at a
concrete cleaned list. -/
theorem c4_normalization_amended_witness :
    strEndsWith "example.com.br" ".br" = true :=
  c4_normalization_amended.2.2.2 ["example.com.br"] "example.com.br" (by decide)

/-! ## Claims C5 and C6: the extraction tie-breaks -/

theorem scanPublicIds_append (l l2 : List JVal) (acc : Option JVal) :
    scanPublicIds acc (l ++ l2) =
      (scanPublicIds acc l) >>= fun a => scanPublicIds a l2 := by
  induction l generalizing acc with
  | nil => simp [scanPublicIds, Bind.bind, Except.bind]
  | cons pid rest ih =>
    simp only [List.cons_append, scanPublicIds]
    cases ht : pyGetItem pid "type" with
    | error e => simp [Bind.bind, Except.bind, ht]
    | ok t =>
      simp only [Bind.bind, Except.bind, ht]
      by_cases hm : t = JVal.jstr "cpf" ∨ t = JVal.jstr "cnpj"
      · rw [if_pos hm, if_pos hm]
        cases hid : pyGetItem pid "identifier" with
        | error e => simp [Bind.bind, Except.bind, hid]
        | ok idv =>
          simp only [Bind.bind, Except.bind, hid]
          exact ih _
      · rw [if_neg hm, if_neg hm]
        exact ih _

theorem scanSubEntities_append (l l2 : List JVal) (acc : Option JVal) :
    scanSubEntities acc (l ++ l2) =
      (scanSubEntities acc l) >>= fun a => scanSubEntities a l2 := by
  induction l generalizing acc with
  | nil => simp [scanSubEntities, Bind.bind, Except.bind]
  | cons sub rest ih =>
    simp only [List.cons_append, scanSubEntities]
    cases hs : subEntityEmail sub with
    | error e => simp [Bind.bind, Except.bind, hs]
    | ok found =>
      simp only [Bind.bind, Except.bind, hs]
      exact ih _

/-- The first sub-entity contact card of the C5 counterexample: its first
email row carries `first@x`. -/
def subFirst : JVal :=
  .jobj [("vcardArray", .jarr [.jstr "vcard",
    .jarr [.jarr [.jstr "email", .jobj [], .jstr "text", .jstr "first@x"]]])]

/-- The second sub-entity contact card of the C5 counterexample: its first
email row carries `second@x`. -/
def subSecond : JVal :=
  .jobj [("vcardArray", .jarr [.jstr "vcard",
    .jarr [.jarr [.jstr "email", .jobj [], .jstr "text", .jstr "second@x"]]])]

/-- A non-error record with one entity holding two sub-entities, both with an
email row; in document order `first@x` comes first. -/
def recTwoEmails : JVal :=
  .jobj [("entities", .jarr [.jobj [("entities", .jarr [subFirst, subSecond])]])]

/-- C5 counterexample: with two sub-entities each carrying an email, the
extractor returns the later one (`second@x`): the `break` at line 65 only ends
the current card's row scan, the sub-entity loop continues and overwrites
`email_rdap`.  The claim predicts the first email found in document order
(`first@x`). -/
theorem c5_email_counterexample :
    extract_key_info recTwoEmails =
      .ok ⟨.jstr "second@x", .jstr "Not available", .jstr "Not available"⟩ ∧
    JVal.jstr "second@x" ≠ JVal.jstr "first@x" :=
  ⟨by decide, by decide⟩

/-- C5 amended: within one sub-entity's card the first email row wins and that
card's scan stops, but the scan over sub-entities continues: a later
sub-entity that has an email overwrites the current value, so the last
sub-entity (in document order) containing an email determines the extracted
contact email; a sub-entity without one leaves the value unchanged. -/
theorem c5_email_tiebreak_amended :
    (∀ (acc a : Option JVal) (l : List JVal) (sub e : JVal),
      scanSubEntities acc l = .ok a →
      subEntityEmail sub = .ok (some e) →
      scanSubEntities acc (l ++ [sub]) = .ok (some e)) ∧
    (∀ (acc a : Option JVal) (l : List JVal) (sub : JVal),
      scanSubEntities acc l = .ok a →
      subEntityEmail sub = .ok none →
      scanSubEntities acc (l ++ [sub]) = .ok a) ∧
    (∀ (b c1 v : JVal) (r2 : List JVal) (rest : List JVal),
      scanVcardForEmail (.jarr (.jstr "email" :: b :: c1 :: v :: r2) :: rest) =
        .ok (some v)) := by
  refine ⟨?_, ?_, ?_⟩
  · intro acc a l sub e hl hs
    rw [scanSubEntities_append, hl]
    simp [Bind.bind, Except.bind, scanSubEntities, hs]
  · intro acc a l sub hl hs
    rw [scanSubEntities_append, hl]
    simp [Bind.bind, Except.bind, scanSubEntities, hs]
  · intro b c1 v r2 rest
    simp [scanVcardForEmail, pyIndex, Bind.bind, Except.bind]

/-- C5 amended witness at the two concrete sub-entities of the counterexample
record. -/
theorem c5_email_tiebreak_amended_witness :
    scanSubEntities none ([subFirst] ++ [subSecond]) = .ok (some (.jstr "second@x")) ∧
    scanVcardForEmail
      [.jarr [.jstr "email", .jobj [], .jstr "text", .jstr "e@x", .jstr "extra"]] =
      .ok (some (.jstr "e@x")) :=
  ⟨c5_email_tiebreak_amended.1 none (some (.jstr "first@x")) [subFirst] subSecond
      (.jstr "second@x") (by decide) (by decide),
   c5_email_tiebreak_amended.2.2 (.jobj []) (.jstr "text") (.jstr "e@x")
      [.jstr "extra"] []⟩

/-- A non-error record whose registrant carries two matching public
identifiers: a `cpf` first, then a `cnpj`. -/
def recTwoIds : JVal :=
  .jobj [("entities", .jarr [.jobj
    [("roles", .jarr [.jstr "registrant"]),
     ("vcardArray", .jarr [.jstr "vcard", .jarr []]),
     ("publicIds", .jarr
       [.jobj [("type", .jstr "cpf"), ("identifier", .jstr "111.111.111-11")],
        .jobj [("type", .jstr "cnpj"), ("identifier", .jstr "22.222.222/0002-22")]])]])]

/-- C6: scanning a registrant's `publicIds`, every entry typed `cpf` or `cnpj`
overwrites the accumulator, so appending a matching entry at the end makes its
identifier the result (last match wins), appending a non-matching entry leaves
the result unchanged; concretely, a record with a `cpf` entry followed by a
`cnpj` entry extracts the later identifier. -/
theorem c6_last_tax_identifier_wins :
    (∀ (acc a : Option JVal) (l : List JVal) (pid t idv : JVal),
      scanPublicIds acc l = .ok a →
      pyGetItem pid "type" = .ok t →
      (t = JVal.jstr "cpf" ∨ t = JVal.jstr "cnpj") →
      pyGetItem pid "identifier" = .ok idv →
      scanPublicIds acc (l ++ [pid]) = .ok (some idv)) ∧
    (∀ (acc a : Option JVal) (l : List JVal) (pid t : JVal),
      scanPublicIds acc l = .ok a →
      pyGetItem pid "type" = .ok t →
      ¬(t = JVal.jstr "cpf" ∨ t = JVal.jstr "cnpj") →
      scanPublicIds acc (l ++ [pid]) = .ok a) ∧
    extract_key_info recTwoIds =
      .ok ⟨.jstr "Not available", .jstr "22.222.222/0002-22", .jstr "Not available"⟩ := by
  refine ⟨?_, ?_, by decide⟩
  · intro acc a l pid t idv hl ht hm hid
    rw [scanPublicIds_append, hl]
    simp only [Bind.bind, Except.bind, scanPublicIds, ht]
    rw [if_pos hm]
    simp [Bind.bind, Except.bind, hid, scanPublicIds]
  · intro acc a l pid t hl ht hm
    rw [scanPublicIds_append, hl]
    simp only [Bind.bind, Except.bind, scanPublicIds, ht]
    rw [if_neg hm]

/-- C6 witness at the two concrete `publicIds` entries of `recTwoIds`. -/
theorem c6_last_tax_identifier_wins_witness :
    scanPublicIds none
      ([.jobj [("type", .jstr "cpf"), ("identifier", .jstr "111.111.111-11")]] ++
       [.jobj [("type", .jstr "cnpj"), ("identifier", .jstr "22.222.222/0002-22")]]) =
      .ok (some (.jstr "22.222.222/0002-22")) :=
  c6_last_tax_identifier_wins.1 none (some (.jstr "111.111.111-11")) _ _
    (.jstr "cnpj") (.jstr "22.222.222/0002-22") (by decide) (by decide)
    (Or.inr rfl) (by decide)

/-! ## Claim C9: the missing-identifier branch -/

/-- C9 amended: when the registry call succeeds and the extractor finds no tax
identifier, `key_info['cpf_cnpj']` is the sentinel `'Not available'` — a
truthy string — so the orchestrator falls through to sanitization, which
yields the empty string, fails the 14-digit test, and takes the
`"not a valid company identifier"` warning branch; the dedicated
`"CNPJ não encontrado"` branch is unreachable for non-error extractions.  In
either branch no ReceitaWS call happens and no store write occurs. -/
theorem c9_missing_identifier_amended :
    ∀ (o : Oracle) (T : Table) (c : ℕ) (d : String) (ki : ExtractedInfo),
      isDictNoError (o.rdap d) = true →
      extract_key_info (o.rdap d) = .ok ki →
      ki.cpf_cnpj = .jstr "Not available" →
      domainBody o T c d = .ok (T, c,
        [.processando d, .rdapCall d, .fixedSleep, .rdapRecuperado d, .cnpjInvalido d],
        o.rdapDur d + 10) := by
  intro o T c d ki h1 h2 h3
  have hpt : pyTruthy (.jstr "Not available") = true := rfl
  have hsan : sanitize_cnpj "Not available" = "" := by decide
  have h14 : ¬(sanitize_cnpj "Not available").length = 14 := by decide
  simp only [domainBody, h1, h2, h3, if_true, Bind.bind, Except.bind, hpt, asPyString]
  rw [if_neg h14]
  simp

/-- The oracle of the C9 counterexample: the registry succeeds with a record
that has no entities (so no identifier is found). -/
def oC9 : Oracle :=
  ⟨fun _ => .jobj [("entities", .jarr [])], fun _ => 0, fun _ => .jobj [], fun _ => 0⟩

/-- C9 counterexample: on a successfully retrieved record from which no tax
identifier is extracted, the iteration emits the `cnpjInvalido` warning (the
"not company-shaped" branch), not the `cnpjNaoEncontrado` warning the claim
names; no ReceitaWS call and no write occur. -/
theorem c9_branch_counterexample :
    domainBody oC9 [] 0 "x.com.br" = .ok ([], 0,
      [.processando "x.com.br", .rdapCall "x.com.br", .fixedSleep,
       .rdapRecuperado "x.com.br", .cnpjInvalido "x.com.br"], 10) ∧
    Ev.cnpjNaoEncontrado "x.com.br" ∉
      ([.processando "x.com.br", .rdapCall "x.com.br", .fixedSleep,
        .rdapRecuperado "x.com.br", .cnpjInvalido "x.com.br"] : List Ev) :=
  ⟨by decide, by decide⟩

/-- C9 amended witness: the theorem applied at the concrete `oC9` run. -/
theorem c9_missing_identifier_amended_witness :
    domainBody oC9 [] 0 "w.com.br" = .ok ([], 0,
      [.processando "w.com.br", .rdapCall "w.com.br", .fixedSleep,
       .rdapRecuperado "w.com.br", .cnpjInvalido "w.com.br"], 10) := by
  have h := c9_missing_identifier_amended oC9 [] 0 "w.com.br"
    ⟨.jstr "Not available", .jstr "Not available", .jstr "Not available"⟩
    (by decide) (by decide) rfl
  simpa using h

/-! ## Claim C7: sanitization and the 14-digit gate -/

/-- C7: `sanitize_cnpj` keeps exactly the digits (so the formatted company
identifier sanitizes to its 14 digits, and every character of any sanitized
identifier is a digit), and for a run whose extraction produced the string
identifier `s`, the ReceitaWS lookup happens when the sanitized identifier has
exactly 14 digits, while any other length takes the warning branch with no
call, no write, and no counter change. -/
theorem c7_identifier_gating :
    sanitize_cnpj "12.345.678/0001-99" = "12345678000199" ∧
    (∀ (s : String) (ch : Char), ch ∈ (sanitize_cnpj s).data → ch.isDigit = true) ∧
    (∀ (o : Oracle) (T : Table) (c : ℕ) (d : String) (ki : ExtractedInfo) (s : String)
       (T2 : Table) (c2 : ℕ) (δ : List Ev) (E : ℤ),
      isDictNoError (o.rdap d) = true →
      extract_key_info (o.rdap d) = .ok ki →
      ki.cpf_cnpj = .jstr s →
      pyTruthy (.jstr s) = true →
      domainBody o T c d = .ok (T2, c2, δ, E) →
      (((sanitize_cnpj s).length = 14 → Ev.cnpjCall (sanitize_cnpj s) ∈ δ) ∧
       ((sanitize_cnpj s).length ≠ 14 →
         δ = [.processando d, .rdapCall d, .fixedSleep, .rdapRecuperado d,
              .cnpjInvalido d] ∧ T2 = T ∧ c2 = c))) := by
  refine ⟨by decide, ?_, ?_⟩
  · intro s ch hch
    exact (List.mem_filter.mp hch).2
  · intro o T c d ki s T2 c2 δ E h1 h2 h3 htr hbody
    simp only [domainBody, h1, h2, h3, if_true, Bind.bind, Except.bind, htr,
      asPyString] at hbody
    by_cases h14 : (sanitize_cnpj s).length = 14
    · rw [if_pos h14] at hbody
      refine ⟨fun _ => ?_, fun hno => absurd h14 hno⟩
      by_cases hrec : isDictNoError (o.cnpj (sanitize_cnpj s)) = true
      · rw [if_pos hrec] at hbody
        cases hf : format_cnpj_info (o.cnpj (sanitize_cnpj s)) with
        | error e => rw [hf] at hbody; cases hbody
        | ok fi =>
          rw [hf] at hbody
          dsimp only at hbody
          cases hs : save_to_csv d ki fi T c with
          | error e => rw [hs] at hbody; cases hbody
          | ok r =>
            rw [hs] at hbody
            dsimp only at hbody
            cases hbody
            simp
      · rw [if_neg hrec] at hbody
        cases hg : pyGet (o.cnpj (sanitize_cnpj s)) "error" (.jstr "Erro desconhecido") with
        | error e => rw [hg] at hbody; cases hbody
        | ok errv =>
          rw [hg] at hbody
          cases hbody
          simp
    · rw [if_neg h14] at hbody
      cases hbody
      exact ⟨fun h => absurd h h14, fun _ => ⟨by simp, rfl, rfl⟩⟩

/-- The registry payload of the C7 witness run: one registrant entity with a
formatted company identifier. -/
def rdapOkPayload : JVal :=
  .jobj [("entities", .jarr [.jobj
    [("roles", .jarr [.jstr "registrant"]),
     ("vcardArray", .jarr [.jstr "vcard", .jarr
        [.jarr [.jstr "version", .jobj [], .jstr "text", .jstr "4.0"],
         .jarr [.jstr "fn", .jobj [], .jstr "text", .jstr "Acme Ltda"]]]),
     ("publicIds", .jarr [.jobj [("type", .jstr "cnpj"),
        ("identifier", .jstr "12.345.678/0001-99")]])]])]

/-- The oracle of the C7 witness run. -/
def oC7 : Oracle :=
  ⟨fun _ => rdapOkPayload, fun _ => 0,
   fun _ => .jobj [("nome", .jstr "ACME LTDA")], fun _ => 0⟩

/-- The row the C7 witness run writes. -/
def rowC7 : Row :=
  { domain := "a.com.br"
    registrationName := .jstr "ACME LTDA"
    tradeName := .jstr "Not available"
    fullAddress := "Not available, Not available, Not available, Not available, Not available"
    cep := .jstr "Not available"
    phone := .jstr "Not available"
    status := .jstr "Not available"
    socialCapital := .jstr "Not available"
    partner1Name := .jstr "Not available"
    partner1Qual := .jstr "Not available"
    partner2Name := .jstr "Not available"
    partner2Qual := .jstr "Not available"
    rdapEmail := .jstr "Not available"
    receitaEmail := .jstr "Not available" }

/-- The events of the C7 witness run. -/
def evC7 : List Ev :=
  [.processando "a.com.br", .rdapCall "a.com.br", .fixedSleep,
   .rdapRecuperado "a.com.br", .cnpjCall "12345678000199", .fixedSleep,
   .salvo "a.com.br"]

/-- C7 witness: the gate theorem applied at the concrete `oC7` run, whose
14-digit sanitized identifier makes the ReceitaWS call happen. -/
theorem c7_identifier_gating_witness :
    sanitize_cnpj "12.345.678/0001-99" = "12345678000199" ∧
    Ev.cnpjCall "12345678000199" ∈ evC7 := by
  refine ⟨c7_identifier_gating.1, ?_⟩
  have h := (c7_identifier_gating.2.2 oC7 [] 0 "a.com.br"
    ⟨.jstr "Not available", .jstr "12.345.678/0001-99", .jstr "Acme Ltda"⟩
    "12.345.678/0001-99" [rowC7] 1 evC7 20
    (by decide) (by decide) rfl (by decide) (by decide)).1 (by decide)
  rw [c7_identifier_gating.1] at h
  exact h

/-! ## Shape lemmas for one loop iteration -/

/-- `save_to_csv` either refuses a duplicate (no write, counter kept) or
appends exactly one row keyed by the new domain and bumps the counter. -/
theorem save_to_csv_cases (d : String) (ki : ExtractedInfo) (ci : CnpjInfo)
    (T : Table) (c : ℕ) (w : Bool) (T2 : Table) (c2 : ℕ)
    (h : save_to_csv d ki ci T c = .ok (w, T2, c2)) :
    (w = false ∧ T2 = T ∧ c2 = c ∧ d ∈ tableDomains T) ∨
    (w = true ∧ c2 = c + 1 ∧ d ∉ tableDomains T ∧
      ∃ row : Row, row.domain = d ∧ T2 = T ++ [row]) := by
  unfold save_to_csv at h
  split at h
  case isTrue hmem =>
    left
    cases h
    exact ⟨rfl, rfl, rfl, hmem⟩
  case isFalse hmem =>
    right
    dsimp only at h
    rw [exceptBind_ok] at h
    obtain ⟨qlen, hq, h⟩ := h
    rw [exceptBind_ok] at h
    obtain ⟨p1n, hp1, h⟩ := h
    rw [exceptBind_ok] at h
    obtain ⟨p1q, hp2, h⟩ := h
    rw [exceptBind_ok] at h
    obtain ⟨p2n, hp3, h⟩ := h
    rw [exceptBind_ok] at h
    obtain ⟨p2q, hp4, h⟩ := h
    cases h
    exact ⟨rfl, rfl, hmem, ⟨_, rfl, rfl⟩⟩

/-- Every successful `domainBody` run: the reported elapsed time is exactly
the summed duration of the emitted events, no floor sleep or extended pause is
emitted by the body itself, and the counter grows by at most one. -/
theorem domainBody_shape (o : Oracle) (T : Table) (c : ℕ) (d : String)
    (T2 : Table) (c2 : ℕ) (δ : List Ev) (E : ℤ)
    (h : domainBody o T c d = .ok (T2, c2, δ, E)) :
    (δ.map (evTime o)).sum = E ∧
    (∀ x ∈ δ, (∀ t, x ≠ .floorSleep t) ∧ x ≠ .extendedPause) ∧
    (c2 = c ∨ c2 = c + 1) := by
  unfold domainBody at h
  by_cases h1 : isDictNoError (o.rdap d) = true
  · rw [if_pos h1] at h
    rw [exceptBind_ok] at h
    obtain ⟨ki, hki, h⟩ := h
    by_cases htr : pyTruthy ki.cpf_cnpj = true
    · rw [if_pos htr] at h
      rw [exceptBind_ok] at h
      obtain ⟨s, hs, h⟩ := h
      by_cases h14 : (sanitize_cnpj s).length = 14
      · rw [if_pos h14] at h
        by_cases hrec : isDictNoError (o.cnpj (sanitize_cnpj s)) = true
        · rw [if_pos hrec] at h
          rw [exceptBind_ok] at h
          obtain ⟨fi, hfi, h⟩ := h
          rw [exceptBind_ok] at h
          obtain ⟨r, hr, h⟩ := h
          obtain ⟨w, Tr, cr⟩ := r
          cases h
          rcases save_to_csv_cases d ki fi T c w Tr cr hr with
            ⟨hw, hT, hc, hmem⟩ | ⟨hw, hc, hnm, hex⟩
          · subst hw; subst hc
            refine ⟨?_, ?_, Or.inl rfl⟩
            · simp [evTime]
              try ring
            · simp [List.forall_mem_append, List.forall_mem_cons]
          · subst hw; subst hc
            refine ⟨?_, ?_, Or.inr rfl⟩
            · simp [evTime]
              try ring
            · simp [List.forall_mem_append, List.forall_mem_cons]
        · rw [if_neg hrec] at h
          rw [exceptBind_ok] at h
          obtain ⟨errv, herr, h⟩ := h
          cases h
          refine ⟨?_, ?_, Or.inl rfl⟩
          · simp [evTime]
            try ring
          · simp [List.forall_mem_append, List.forall_mem_cons]
      · rw [if_neg h14] at h
        cases h
        refine ⟨?_, ?_, Or.inl rfl⟩
        · simp [evTime]
          try ring
        · simp [List.forall_mem_append, List.forall_mem_cons]
    · rw [if_neg htr] at h
      cases h
      refine ⟨?_, ?_, Or.inl rfl⟩
      · simp [evTime]
        try ring
      · simp [List.forall_mem_append, List.forall_mem_cons]
  · rw [if_neg h1] at h
    rw [exceptBind_ok] at h
    obtain ⟨errv, herr, h⟩ := h
    cases h
    refine ⟨?_, ?_, Or.inl rfl⟩
    · simp [evTime]
      try ring
    · simp [List.forall_mem_append, List.forall_mem_cons]

/-- A non-skipped iteration decomposes as: the body's events, then the floor
sleep, then (exactly when the new counter is a positive multiple of 5) the
extended pause. -/
theorem processDomain_shape (o : Oracle) (ex : List String) (T : Table) (c : ℕ)
    (ev : List Ev) (d : String) (T2 : Table) (c2 : ℕ) (ev2 : List Ev)
    (hd : d ∉ ex) (h : processDomain o ex (T, c, ev) d = .ok (T2, c2, ev2)) :
    ∃ δ E, domainBody o T c d = .ok (T2, c2, δ, E) ∧
      ev2 = ev ++ δ ++ [.floorSleep (maxZero (60 - E))] ++
        (if 0 < c2 ∧ c2 % 5 = 0 then [Ev.extendedPause] else []) := by
  unfold processDomain at h
  dsimp only at h
  rw [if_neg hd] at h
  rw [exceptBind_ok] at h
  obtain ⟨r, hr, h⟩ := h
  obtain ⟨Tb, cb, δ, E⟩ := r
  cases h
  exact ⟨δ, E, hr, rfl⟩

/-! ## Claim C3: the 60-second pacing floor -/

/-- C3: for every processed (non-skipped) domain, whatever the outcome, the
iteration sleeps exactly `max(0, 60 - elapsed)` where `elapsed` is the wall
time of everything since the domain's processing began (the calls and the
fixed 10-second delays); the lifecycle `elapsed + sleep` is clamped to
`max elapsed 60`, and no extra sleep is added once `elapsed` reaches 60. -/
theorem c3_pacing_floor :
    ∀ (o : Oracle) (ex : List String) (T : Table) (c : ℕ) (ev : List Ev)
      (d : String) (T2 : Table) (c2 : ℕ) (ev2 : List Ev),
      d ∉ ex →
      processDomain o ex (T, c, ev) d = .ok (T2, c2, ev2) →
      ∃ δ E, domainBody o T c d = .ok (T2, c2, δ, E) ∧
        E = (δ.map (evTime o)).sum ∧
        ev2 = ev ++ δ ++ [.floorSleep (max 0 (60 - E))] ++
          (if 0 < c2 ∧ c2 % 5 = 0 then [Ev.extendedPause] else []) ∧
        E + max 0 (60 - E) = max E 60 ∧
        (60 ≤ E → max 0 (60 - E) = 0) := by
  intro o ex T c ev d T2 c2 ev2 hd h
  obtain ⟨δ, E, hb, hev⟩ := processDomain_shape o ex T c ev d T2 c2 ev2 hd h
  obtain ⟨hsum, _, _⟩ := domainBody_shape o T c d T2 c2 δ E hb
  refine ⟨δ, E, hb, hsum.symm, ?_, ?_, ?_⟩
  · rw [← maxZero_eq_max]
    exact hev
  · rcases le_total E 60 with hE | hE
    · rw [max_eq_right (by omega : (0:ℤ) ≤ 60 - E), max_eq_right hE]
      ring
    · rw [max_eq_left (by omega : 60 - E ≤ (0:ℤ)), max_eq_left hE]
      ring
  · intro h60
    rw [max_eq_left (by omega : 60 - E ≤ (0:ℤ))]

/-- An oracle whose registry lookup always fails with a transport error. -/
def oErr : Oracle :=
  ⟨fun _ => .jobj [("error", .jstr "timeout")], fun _ => 0,
   fun _ => .jobj [], fun _ => 0⟩

/-- The events of one `oErr` iteration started with counter 0. -/
def evZ0 : List Ev :=
  [.processando "z.com.br", .rdapCall "z.com.br", .fixedSleep,
   .erroRdap "z.com.br" (.jstr "timeout"), .floorSleep 50]

/-- C3 witness: the floor theorem applied at a concrete failed-lookup
iteration (elapsed 10 seconds, floor sleep 50 seconds). -/
theorem c3_pacing_floor_witness :
    ∃ δ E, domainBody oErr [] 0 "z.com.br" = .ok ([], 0, δ, E) ∧
      E = (δ.map (evTime oErr)).sum ∧
      evZ0 = [] ++ δ ++ [.floorSleep (max 0 (60 - E))] ++
        (if 0 < 0 ∧ 0 % 5 = 0 then [Ev.extendedPause] else []) ∧
      E + max 0 (60 - E) = max E 60 ∧
      (60 ≤ E → max 0 (60 - E) = 0) :=
  c3_pacing_floor oErr [] [] 0 [] "z.com.br" [] 0 evZ0 (by decide) (by decide)

/-! ## Claim C2: the extended pause -/

/-- C2 amended: in every non-skipped iteration the extended pause, when it
fires, is the last event — after the floor sleep, not before — and it fires
exactly when the cumulative counter at the end of the iteration is a positive
multiple of 5; the body itself emits no pause or floor sleep, and the counter
(never reset) grows by at most one per iteration.  Consequently the pause also
repeats after iterations that write nothing while the counter stays at a
multiple of 5. -/
theorem c2_extended_pause_amended :
    ∀ (o : Oracle) (ex : List String) (T : Table) (c : ℕ) (ev : List Ev)
      (d : String) (T2 : Table) (c2 : ℕ) (ev2 : List Ev),
      d ∉ ex →
      processDomain o ex (T, c, ev) d = .ok (T2, c2, ev2) →
      ∃ δ t, ev2 = ev ++ δ ++ [.floorSleep t] ++
          (if 0 < c2 ∧ c2 % 5 = 0 then [Ev.extendedPause] else []) ∧
        Ev.extendedPause ∉ δ ∧
        (∀ t2, Ev.floorSleep t2 ∉ δ) ∧
        (c2 = c ∨ c2 = c + 1) := by
  intro o ex T c ev d T2 c2 ev2 hd h
  obtain ⟨δ, E, hb, hev⟩ := processDomain_shape o ex T c ev d T2 c2 ev2 hd h
  obtain ⟨_, hno, hc⟩ := domainBody_shape o T c d T2 c2 δ E hb
  refine ⟨δ, maxZero (60 - E), hev, ?_, ?_, hc⟩
  · intro hm
    exact (hno _ hm).2 rfl
  · intro t2 hm
    exact (hno _ hm).1 t2 rfl

/-- Number of extended pauses in a trace. -/
def pauseCount (l : List Ev) : ℕ := l.countP (fun e => e == Ev.extendedPause)

/-- The oracle of the C2 counterexample run: every domain resolves to the
successful registry payload except `f.com.br`, whose lookup fails. -/
def oC2 : Oracle :=
  ⟨fun d => if d == "f.com.br" then .jobj [("error", .jstr "timeout")] else rdapOkPayload,
   fun _ => 0, fun _ => .jobj [("nome", .jstr "ACME LTDA")], fun _ => 0⟩

/-- The input list of the C2 counterexample run: five domains that succeed and
write, then one whose registry lookup fails. -/
def dsC2 : List String :=
  ["a1.com.br", "a2.com.br", "a3.com.br", "a4.com.br", "a5.com.br", "f.com.br"]

set_option maxHeartbeats 4000000 in
/-- C2 counterexample: a run with exactly five successful writes contains TWO
extended pauses, not one — the counter stays at 5 after the failed sixth
domain and the `% 5` check fires again after an iteration that wrote
nothing.  The claim ("inserted exactly once per multiple-of-5 cumulative
successful write ... never inserted after a domain whose processing produced
no new successful write") is therefore false on this input. -/
theorem c2_extended_pause_counterexample :
    Except.map (fun r => (r.2.1, pauseCount r.2.2)) (runPipeline oC2 dsC2 []) =
      .ok (5, 2) := by decide

/-- The events of one `oErr` iteration started with counter 5: the floor sleep
comes first, the extended pause last, although the iteration wrote nothing. -/
def evZ5 : List Ev :=
  [.processando "z.com.br", .rdapCall "z.com.br", .fixedSleep,
   .erroRdap "z.com.br" (.jstr "timeout"), .floorSleep 50, .extendedPause]

/-- C2 amended witness: the pause-shape theorem applied at a concrete failed
iteration entered with counter 5. -/
theorem c2_extended_pause_amended_witness :
    ∃ δ t, evZ5 = [] ++ δ ++ [Ev.floorSleep t] ++
        (if 0 < 5 ∧ 5 % 5 = 0 then [Ev.extendedPause] else []) ∧
      Ev.extendedPause ∉ δ ∧
      (∀ t2, Ev.floorSleep t2 ∉ δ) ∧
      (5 = 5 ∨ 5 = 5 + 1) :=
  c2_extended_pause_amended oErr [] [] 5 [] "z.com.br" [] 5 evZ5 (by decide) (by decide)

/-! ## Claim C1: idempotent resumption -/

theorem processDomain_skip (o : Oracle) (ex : List String) (T : Table) (c : ℕ)
    (ev : List Ev) (d : String) (hd : d ∈ ex) :
    processDomain o ex (T, c, ev) d = .ok (T, c, ev ++ [.skipExisting d]) := by
  unfold processDomain
  dsimp only
  rw [if_pos hd]

theorem processDomain_of_body (o : Oracle) (ex : List String) (T : Table) (c : ℕ)
    (ev : List Ev) (d : String) (T2 : Table) (c2 : ℕ) (δ : List Ev) (E : ℤ)
    (hd : d ∉ ex) (hb : domainBody o T c d = .ok (T2, c2, δ, E)) :
    processDomain o ex (T, c, ev) d = .ok (T2, c2,
      ev ++ δ ++ [.floorSleep (maxZero (60 - E))] ++
        (if 0 < c2 ∧ c2 % 5 = 0 then [Ev.extendedPause] else [])) := by
  unfold processDomain
  dsimp only
  rw [if_neg hd, hb]
  rfl

/-- Each `domainBody` run either leaves the table and counter alone or appends
exactly one row keyed by a domain not previously present. -/
theorem domainBody_table_cases (o : Oracle) (T : Table) (c : ℕ) (d : String)
    (T2 : Table) (c2 : ℕ) (δ : List Ev) (E : ℤ)
    (h : domainBody o T c d = .ok (T2, c2, δ, E)) :
    (T2 = T ∧ c2 = c) ∨
    (∃ row : Row, row.domain = d ∧ T2 = T ++ [row] ∧ c2 = c + 1 ∧
      d ∉ tableDomains T) := by
  unfold domainBody at h
  by_cases h1 : isDictNoError (o.rdap d) = true
  · rw [if_pos h1] at h
    rw [exceptBind_ok] at h
    obtain ⟨ki, hki, h⟩ := h
    by_cases htr : pyTruthy ki.cpf_cnpj = true
    · rw [if_pos htr] at h
      rw [exceptBind_ok] at h
      obtain ⟨s, hs, h⟩ := h
      by_cases h14 : (sanitize_cnpj s).length = 14
      · rw [if_pos h14] at h
        by_cases hrec : isDictNoError (o.cnpj (sanitize_cnpj s)) = true
        · rw [if_pos hrec] at h
          rw [exceptBind_ok] at h
          obtain ⟨fi, hfi, h⟩ := h
          rw [exceptBind_ok] at h
          obtain ⟨r, hr, h⟩ := h
          obtain ⟨w, Tr, cr⟩ := r
          cases h
          rcases save_to_csv_cases d ki fi T c w Tr cr hr with
            ⟨_, hT, hc, _⟩ | ⟨_, hc, hnm, row, hrow, hT⟩
          · exact Or.inl ⟨hT, hc⟩
          · exact Or.inr ⟨row, hrow, hT, hc, hnm⟩
        · rw [if_neg hrec] at h
          rw [exceptBind_ok] at h
          obtain ⟨errv, herr, h⟩ := h
          cases h
          exact Or.inl ⟨rfl, rfl⟩
      · rw [if_neg h14] at h
        cases h
        exact Or.inl ⟨rfl, rfl⟩
    · rw [if_neg htr] at h
      cases h
      exact Or.inl ⟨rfl, rfl⟩
  · rw [if_neg h1] at h
    rw [exceptBind_ok] at h
    obtain ⟨errv, herr, h⟩ := h
    cases h
    exact Or.inl ⟨rfl, rfl⟩

/-- Each loop iteration either leaves the table alone or appends one row keyed
by the fresh domain. -/
theorem processDomain_cases (o : Oracle) (ex : List String) (T : Table) (c : ℕ)
    (ev : List Ev) (d : String) (T2 : Table) (c2 : ℕ) (ev2 : List Ev)
    (h : processDomain o ex (T, c, ev) d = .ok (T2, c2, ev2)) :
    (T2 = T) ∨
    (∃ row : Row, row.domain = d ∧ T2 = T ++ [row] ∧ d ∉ tableDomains T) := by
  by_cases hd : d ∈ ex
  · rw [processDomain_skip o ex T c ev d hd] at h
    cases h
    exact Or.inl rfl
  · obtain ⟨δ, E, hb, _⟩ := processDomain_shape o ex T c ev d T2 c2 ev2 hd h
    rcases domainBody_table_cases o T c d T2 c2 δ E hb with ⟨hT, _⟩ |
      ⟨row, hrow, hT, _, hnm⟩
    · exact Or.inl hT
    · exact Or.inr ⟨row, hrow, hT, hnm⟩

/-- The table only grows along the loop. -/
theorem runFold_mono (o : Oracle) (ex : List String) :
    ∀ (ds : List String) (T : Table) (c : ℕ) (ev : List Ev)
      (T1 : Table) (c1 : ℕ) (ev1 : List Ev),
      ds.foldlM (processDomain o ex) (T, c, ev) = .ok (T1, c1, ev1) →
      ∀ x ∈ tableDomains T, x ∈ tableDomains T1 := by
  intro ds
  induction ds with
  | nil =>
    intro T c ev T1 c1 ev1 h x hx
    simp only [List.foldlM_nil, exceptPure_eq_ok] at h
    cases h
    exact hx
  | cons d ds ih =>
    intro T c ev T1 c1 ev1 h x hx
    rw [List.foldlM_cons, exceptBind_ok] at h
    obtain ⟨st2, hstep, htail⟩ := h
    obtain ⟨Tm, cm, evm⟩ := st2
    rcases processDomain_cases o ex T c ev d Tm cm evm hstep with hT | ⟨row, _, hT, _⟩
    · subst hT
      exact ih _ cm evm T1 c1 ev1 htail x hx
    · have hx2 : x ∈ tableDomains Tm := by
        rw [hT]
        unfold tableDomains
        rw [List.map_append]
        exact List.mem_append_left _ hx
      exact ih Tm cm evm T1 c1 ev1 htail x hx2

/-- A body run that neither raised nor wrote (table and counter unchanged,
domain not already present) depends only on the oracle and the domain: run
against any other table and counter, it produces the same events and elapsed
time and again writes nothing. -/
theorem domainBody_no_write_indep (o : Oracle) (d : String) (T : Table) (c : ℕ)
    (δ : List Ev) (E : ℤ) (h : domainBody o T c d = .ok (T, c, δ, E))
    (hd : d ∉ tableDomains T) (T3 : Table) (c3 : ℕ) :
    domainBody o T3 c3 d = .ok (T3, c3, δ, E) := by
  unfold domainBody at h ⊢
  by_cases h1 : isDictNoError (o.rdap d) = true
  · rw [if_pos h1] at h ⊢
    cases hki : extract_key_info (o.rdap d) with
    | error e =>
      rw [hki] at h
      dsimp only [Bind.bind, Except.bind] at h
      exact Except.noConfusion h
    | ok ki =>
      rw [hki] at h
      dsimp only [Bind.bind, Except.bind] at h ⊢
      by_cases htr : pyTruthy ki.cpf_cnpj = true
      · rw [if_pos htr] at h ⊢
        cases hstr : asPyString ki.cpf_cnpj with
        | error e =>
          rw [hstr] at h
          dsimp only at h
          exact Except.noConfusion h
        | ok s =>
          rw [hstr] at h
          dsimp only at h ⊢
          by_cases h14 : (sanitize_cnpj s).length = 14
          · rw [if_pos h14] at h ⊢
            by_cases hrec : isDictNoError (o.cnpj (sanitize_cnpj s)) = true
            · rw [if_pos hrec] at h ⊢
              exfalso
              cases hfi : format_cnpj_info (o.cnpj (sanitize_cnpj s)) with
              | error e =>
                rw [hfi] at h
                dsimp only at h
                exact Except.noConfusion h
              | ok fi =>
                rw [hfi] at h
                dsimp only at h
                cases hr : save_to_csv d ki fi T c with
                | error e =>
                  rw [hr] at h
                  dsimp only at h
                  exact Except.noConfusion h
                | ok r =>
                  rw [hr] at h
                  dsimp only at h
                  obtain ⟨w, Tr, cr⟩ := r
                  simp only [Except.ok.injEq, Prod.mk.injEq] at h
                  obtain ⟨-, hcr, -, -⟩ := h
                  rcases save_to_csv_cases d ki fi T c w Tr cr hr with
                    ⟨-, -, -, hmem⟩ | ⟨-, hc2, -, -⟩
                  · exact hd hmem
                  · omega
            · rw [if_neg hrec] at h ⊢
              cases herr : pyGet (o.cnpj (sanitize_cnpj s)) "error"
                  (.jstr "Erro desconhecido") with
              | error e =>
                rw [herr] at h
                dsimp only at h
                exact Except.noConfusion h
              | ok errv =>
                rw [herr] at h
                dsimp only at h ⊢
                simp only [Except.ok.injEq, Prod.mk.injEq] at h
                obtain ⟨-, -, hδ, hE⟩ := h
                rw [hδ, hE]
          · rw [if_neg h14] at h ⊢
            simp only [Except.ok.injEq, Prod.mk.injEq] at h
            obtain ⟨-, -, hδ, hE⟩ := h
            rw [hδ, hE]
      · rw [if_neg htr] at h ⊢
        simp only [Except.ok.injEq, Prod.mk.injEq] at h
        obtain ⟨-, -, hδ, hE⟩ := h
        rw [hδ, hE]
  · rw [if_neg h1] at h ⊢
    cases herr : pyGet (o.rdap d) "error" (.jstr "Erro desconhecido") with
    | error e =>
      rw [herr] at h
      dsimp only [Bind.bind, Except.bind] at h
      exact Except.noConfusion h
    | ok errv =>
      rw [herr] at h
      dsimp only [Bind.bind, Except.bind] at h ⊢
      simp only [Except.ok.injEq, Prod.mk.injEq] at h
      obtain ⟨-, -, hδ, hE⟩ := h
      rw [hδ, hE]

/-- Re-running the loop over the same domain list against the finished table
`T1` (with the existing-domain set reloaded from `T1` and the counter reset,
as a fresh process start does) is a no-op: every domain is either skipped or
fails in exactly the way it failed before, so the table never changes and no
write ever succeeds. -/
theorem run2_fixed (o : Oracle) (exA : List String) (T1 : Table) (c1 : ℕ)
    (ev1 : List Ev) (hsub : ∀ x ∈ exA, x ∈ tableDomains T1) :
    ∀ (ds : List String) (T : Table) (c : ℕ) (ev : List Ev),
      ds.foldlM (processDomain o exA) (T, c, ev) = .ok (T1, c1, ev1) →
      ∀ (c2 : ℕ) (ev2 : List Ev), ∃ evr,
        ds.foldlM (processDomain o (tableDomains T1)) (T1, c2, ev2) =
          .ok (T1, c2, evr) := by
  intro ds
  induction ds with
  | nil =>
    intro T c ev h c2 ev2
    exact ⟨ev2, by rw [List.foldlM_nil]; rfl⟩
  | cons d ds ih =>
    intro T c ev h c2 ev2
    rw [List.foldlM_cons, exceptBind_ok] at h
    obtain ⟨st2, hstep, htail⟩ := h
    obtain ⟨Tm, cm, evm⟩ := st2
    by_cases hdex : d ∈ exA
    · rw [processDomain_skip o exA T c ev d hdex] at hstep
      cases hstep
      have hd1 : d ∈ tableDomains T1 := hsub d hdex
      obtain ⟨evr, hres⟩ := ih _ _ _ htail c2 (ev2 ++ [.skipExisting d])
      refine ⟨evr, ?_⟩
      rw [List.foldlM_cons, processDomain_skip o (tableDomains T1) T1 c2 ev2 d hd1]
      exact hres
    · obtain ⟨δ, E, hb, hevm⟩ := processDomain_shape o exA T c ev d Tm cm evm hdex hstep
      rcases domainBody_table_cases o T c d Tm cm δ E hb with ⟨hT, hc⟩ |
        ⟨row, hrow, hT, hc, hnm⟩
      · subst hT; subst hc
        by_cases hd1 : d ∈ tableDomains T1
        · obtain ⟨evr, hres⟩ := ih Tm cm evm htail c2 (ev2 ++ [.skipExisting d])
          refine ⟨evr, ?_⟩
          rw [List.foldlM_cons, processDomain_skip o (tableDomains T1) T1 c2 ev2 d hd1]
          exact hres
        · have hdT : d ∉ tableDomains Tm :=
            fun hx => hd1 (runFold_mono o exA ds Tm cm evm T1 c1 ev1 htail d hx)
          have hb2 := domainBody_no_write_indep o d Tm cm δ E hb hdT T1 c2
          have hstep2 := processDomain_of_body o (tableDomains T1) T1 c2 ev2 d T1 c2
            δ E hd1 hb2
          obtain ⟨evr, hres⟩ := ih Tm cm evm htail c2
            (ev2 ++ δ ++ [.floorSleep (maxZero (60 - E))] ++
              (if 0 < c2 ∧ c2 % 5 = 0 then [Ev.extendedPause] else []))
          refine ⟨evr, ?_⟩
          rw [List.foldlM_cons, hstep2]
          exact hres
      · have hdm : d ∈ tableDomains Tm := by
          rw [hT]
          unfold tableDomains
          rw [List.map_append]
          refine List.mem_append_right _ ?_
          rw [List.map_singleton, hrow]
          exact List.mem_singleton_self d
        have hd1 : d ∈ tableDomains T1 :=
          runFold_mono o exA ds Tm cm evm T1 c1 ev1 htail d hdm
        obtain ⟨evr, hres⟩ := ih Tm cm evm htail c2 (ev2 ++ [.skipExisting d])
        refine ⟨evr, ?_⟩
        rw [List.foldlM_cons, processDomain_skip o (tableDomains T1) T1 c2 ev2 d hd1]
        exact hres

/-- The loop preserves distinctness of the `Domain` column: a row is only ever
appended for a domain not yet present. -/
theorem runFold_nodup (o : Oracle) (ex : List String) :
    ∀ (ds : List String) (T : Table) (c : ℕ) (ev : List Ev)
      (T1 : Table) (c1 : ℕ) (ev1 : List Ev),
      ds.foldlM (processDomain o ex) (T, c, ev) = .ok (T1, c1, ev1) →
      (tableDomains T).Nodup → (tableDomains T1).Nodup := by
  intro ds
  induction ds with
  | nil =>
    intro T c ev T1 c1 ev1 h hnd
    simp only [List.foldlM_nil, exceptPure_eq_ok] at h
    cases h
    exact hnd
  | cons d ds ih =>
    intro T c ev T1 c1 ev1 h hnd
    rw [List.foldlM_cons, exceptBind_ok] at h
    obtain ⟨st2, hstep, htail⟩ := h
    obtain ⟨Tm, cm, evm⟩ := st2
    rcases processDomain_cases o ex T c ev d Tm cm evm hstep with hT |
      ⟨row, hrow, hT, hnm⟩
    · subst hT
      exact ih _ cm evm T1 c1 ev1 htail hnd
    · have hnd2 : (tableDomains Tm).Nodup := by
        rw [hT]
        unfold tableDomains
        rw [List.map_append, List.map_singleton, List.nodup_append]
        refine ⟨hnd, List.nodup_singleton _, ?_⟩
        intro x hx hx2
        rw [List.mem_singleton] at hx2
        subst hx2
        rw [hrow] at hx
        exact hnm hx
      exact ih Tm cm evm T1 c1 ev1 htail hnd2

/-- C1: (i) for any domain already present in the output table — whether
present before the run started or appended earlier in the same run — the store
append is a no-op that returns `false` and adds no row and no count; (ii)
running the pipeline a second time on the same input list over the table `T1`
produced by a completed first run succeeds, returns `T1` with no new rows, and
performs zero successful writes; (iii) a table whose `Domain` keys are
distinct keeps them distinct through any run, so no duplicate keys appear. -/
theorem c1_idempotent_resumption :
    ∀ (o : Oracle) (ds : List String) (T0 T1 : Table) (c1 : ℕ) (ev1 : List Ev),
      runPipeline o ds T0 = .ok (T1, c1, ev1) →
      (∀ (d : String) (ki : ExtractedInfo) (ci : CnpjInfo) (T : Table) (c : ℕ),
        d ∈ tableDomains T → save_to_csv d ki ci T c = .ok (false, T, c)) ∧
      (∃ ev2, runPipeline o ds T1 = .ok (T1, 0, ev2)) ∧
      ((tableDomains T0).Nodup → (tableDomains T1).Nodup) := by
  intro o ds T0 T1 c1 ev1 h
  unfold runPipeline at h
  refine ⟨?_, ?_, ?_⟩
  · intro d ki ci T c hmem
    unfold save_to_csv
    rw [if_pos hmem]
  · have hsub : ∀ x ∈ tableDomains T0, x ∈ tableDomains T1 :=
      runFold_mono o (tableDomains T0) ds T0 0 [] T1 c1 ev1 h
    exact run2_fixed o (tableDomains T0) T1 c1 ev1 hsub ds T0 0 [] h 0 []
  · intro hnd
    exact runFold_nodup o (tableDomains T0) ds T0 0 [] T1 c1 ev1 h hnd

/-- The trace of the one-domain `oC7` run that writes `rowC7`. -/
def evRun1 : List Ev := evC7 ++ [.floorSleep 40]

set_option maxHeartbeats 1000000 in
/-- C1 witness: the idempotence theorem applied to a concrete one-domain run
that successfully writes one row. -/
theorem c1_idempotent_resumption_witness :
    (∀ (d : String) (ki : ExtractedInfo) (ci : CnpjInfo) (T : Table) (c : ℕ),
      d ∈ tableDomains T → save_to_csv d ki ci T c = .ok (false, T, c)) ∧
    (∃ ev2, runPipeline oC7 ["a.com.br"] [rowC7] = .ok ([rowC7], 0, ev2)) ∧
    ((tableDomains ([] : Table)).Nodup → (tableDomains [rowC7]).Nodup) :=
  c1_idempotent_resumption oC7 ["a.com.br"] [] [rowC7] 1 evRun1 (by decide)
